import Mathlib

/-!
Shallow embedding of the bus-tracking reconciliation core of the
`my-bus-tracker` repository, together with theorems checking the
natural-language specification against the code.

The embedded code:
* `computeStopIndex` — the stop-index resolution cascade of the RTDB
  subscription callback in `src/context/StudentContext.tsx` (lines 416-467).
* `processSnapshot` — the notification state machine of the same callback
  (lines 469-569): initial-snapshot suppression, bus-started idempotency,
  stop-transition events, freshness gating, previous-index bookkeeping.
* `sendToTokens` — the Cloud Function fan-out helper in
  `functions/lib/index.js` (lines 127-171): per-token delivery, permanent
  failure cleanup, transient failure tolerance.
* `cfStopEvents` — the per-student stop-event derivation of the
  `onBusCurrentStopChange` Cloud Function (lines 274-321).
* `isCompletedButExpired`, `getStopStatus`, `effectiveStatus`,
  `busPosition` — the 30-minute completion-expiry read path of
  `src/screens/TrackingScreen.tsx` (lines 28-107).

JavaScript conventions are modelled explicitly: absent / null / undefined
fields are `Option.none`; string truthiness (`""` is falsy) is `truthyS`;
`Array.prototype.findIndex` is `findIdxI` (first index or -1);
`Object.entries(...)` of an RTDB map is a `List (String × _)` in iteration
order; numeric timestamps and stop ordinals are `Int`.
-/

namespace BusTracker

/-- A stop of a route as loaded from Firestore: `{id, name}` (the ordinal is
implicit in the list position). -/
structure Stop where
  id : String
  name : String
deriving Repr, DecidableEq

/-- A route: ordered list of stops. -/
structure Route where
  stops : List Stop
deriving Repr, DecidableEq

/-- One value of the RTDB `stops/{stopId}` map: `{status?, stopId?, order?, name?}`. -/
structure RtdbStopEntry where
  status : Option String := none
  stopId : Option String := none
  order : Option Int := none
  name : Option String := none
deriving Repr, DecidableEq

/-- The RTDB `currentStop` object: `{stopId?, name?, order?, updatedAt?}`. -/
structure RtdbCurrentStop where
  stopId : Option String := none
  name : Option String := none
  order : Option Int := none
  updatedAt : Option Int := none
deriving Repr, DecidableEq

/-- The RTDB `location` object (the fields the callback reads). -/
structure RtdbLocation where
  routeState : Option String := none
  updatedAt : Option Int := none
  timestamp : Option Int := none
deriving Repr, DecidableEq

/-- One RTDB snapshot for a bus, as delivered to the subscription callback:
`routeState?`, `location`, `currentStop?`, and the per-stop status map
(`Object.entries` order preserved). -/
structure BusData where
  routeState : Option String := none
  location : RtdbLocation := {}
  currentStop : Option RtdbCurrentStop := none
  stops : Option (List (String × RtdbStopEntry)) := none
deriving Repr, DecidableEq

/-- JavaScript truthiness for an optional string: `undefined`/`null` and `""`
are falsy. -/
def truthyS (o : Option String) : Bool :=
  match o with
  | some s => !(s == "")
  | none => false

/-- JavaScript `Array.prototype.findIndex`: index of the first element
satisfying `p`, or `-1`. -/
def findIdxI (p : α → Bool) : List α → Int
  | [] => -1
  | a :: l =>
    if p a then 0
    else if findIdxI p l < 0 then -1 else findIdxI p l + 1

/-- Lines 425-441: the fallback chain applied to the per-stop-status entry
whose status is `current`.  Faithful to the source order: key-id match,
`stopId`-field match, `order`-based fallback (`Math.max(0, order - 1)`),
then name match. -/
def resolveFromCurrentEntry (current : String × RtdbStopEntry) (stops : List Stop) : Int :=
  let i1 := findIdxI (fun s => s.id == current.1) stops
  let i2 :=
    if i1 < 0 ∧ truthyS current.2.stopId = true then
      findIdxI (fun s => s.id == current.2.stopId.getD "") stops
    else i1
  let i3 :=
    if i2 < 0 ∧ current.2.order.isSome = true then max 0 (current.2.order.getD 0 - 1)
    else i2
  let i4 :=
    if i3 < 0 ∧ truthyS current.2.name = true then
      findIdxI (fun s => s.name == current.2.name.getD "") stops
    else i3
  i4

/-- Lines 420-443: scan the per-stop-status map for the entry marked
`current` (first match in `Object.entries` order) and resolve it; -1 when
the map is absent, has no `current` entry, or the chain fails. -/
def resolveFromPerStop (data : BusData) (stops : List Stop) : Int :=
  match data.stops with
  | some entries =>
    match entries.find? (fun e => e.2.status == some "current") with
    | some current => resolveFromCurrentEntry current stops
    | none => -1
  | none => -1

/-- Lines 446-461: the `currentStop` fallback chain (`stopId`, then `name`,
then `order`), entered with the unresolved value `iA` from the per-stop
branch. -/
def resolveFromCurrentStop (cs : RtdbCurrentStop) (iA : Int) (stops : List Stop) : Int :=
  let j1 :=
    if truthyS cs.stopId = true then findIdxI (fun s => s.id == cs.stopId.getD "") stops
    else iA
  let j2 :=
    if j1 < 0 ∧ truthyS cs.name = true then findIdxI (fun s => s.name == cs.name.getD "") stops
    else j1
  let j3 :=
    if j2 < 0 ∧ cs.order.isSome = true then max 0 (cs.order.getD 0 - 1)
    else j2
  j3

/-- The stop-index resolution chain of `StudentContext.tsx` lines 417-461,
before the final upper-bound clamp.  `stops` is the selected route's stop
list.  The per-stop `current` entry branch runs first; the `currentStop`
branch only runs when the former left the index unresolved. -/
def rawStopIndex (data : BusData) (stops : List Stop) : Int :=
  let iA := resolveFromPerStop data stops
  match data.currentStop with
  | some cs => if iA < 0 then resolveFromCurrentStop cs iA stops else iA
  | none => iA

/-- `currentStopIndex` as computed by the callback (lines 416-467): `-1`
when no route is loaded, otherwise the resolution chain followed by the
upper-bound clamp `if (idx >= stops.length) idx = stops.length - 1`. -/
def computeStopIndex (data : BusData) (route : Option Route) : Int :=
  match route with
  | none => -1
  | some currentRoute =>
    let i := rawStopIndex data currentRoute.stops
    if (currentRoute.stops.length : Int) ≤ i then (currentRoute.stops.length : Int) - 1
    else i

/-- `rs` at line 405: `(data.routeState ?? data.location.routeState ?? '').toString()`. -/
def rsOf (data : BusData) : String :=
  (data.routeState.orElse fun _ => data.location.routeState).getD ""

/-- Derived status (lines 406-411): `completed` / `running` / `not-started`. -/
def statusOf (data : BusData) : String :=
  if rsOf data = "completed" then "completed"
  else if rsOf data = "in_progress" then "running"
  else "not-started"

/-- `ts` at line 413: `currentStop?.updatedAt ?? location.updatedAt ??
location.timestamp ?? Date.now()`, with `now` the processing-time clock. -/
def tsOf (now : Int) (data : BusData) : Int :=
  (((data.currentStop.bind RtdbCurrentStop.updatedAt).orElse
      fun _ => data.location.updatedAt).orElse
    fun _ => data.location.timestamp).getD now

/-- Freshness check (lines 480-483): snapshot age below five minutes. -/
def isFresh (now : Int) (data : BusData) : Bool :=
  decide (now - tsOf now data < 5 * 60 * 1000)

/-- `isActuallyRunning` (line 485). -/
def isActuallyRunning (now : Int) (data : BusData) : Bool :=
  (statusOf data == "running" || rsOf data == "in_progress") && isFresh now data

/-- The kinds of in-app notification events the callback can add
(`addNotification` calls): bus-started, stop-approaching, stop-reached
(arrived), and the passed-stop alert. -/
inductive TripEventKind where
  | busStarted
  | stopApproaching
  | stopReached
  | stopPassed
deriving Repr, DecidableEq

/-- The mutable notification bookkeeping held across callbacks:
`isFirstCallback` (subscription-local, line 376), `busStartedNotifiedRef`
(line 92) and `previousStopIndexRef` (line 91). -/
structure NotifState where
  isFirstCallback : Bool
  busStartedNotified : Bool
  previousStopIndex : Int
deriving Repr, DecidableEq

/-- The state a freshly mounted provider starts a new subscription with:
first callback pending, no bus-started notification recorded, previous stop
index -1. -/
def initialNotifState : NotifState :=
  { isFirstCallback := true, busStartedNotified := false, previousStopIndex := -1 }

/-- The displayed `busState` fields written by the callback (lines 469-474). -/
structure BusStateDisp where
  status : String
  currentStopIndex : Int
  lastUpdated : Int
deriving Repr, DecidableEq

/-- The bus-started emission of lines 512-522: fires when actually running
and not yet notified. -/
def startEventsOf (running notified0 : Bool) : List TripEventKind :=
  if running = true ∧ notified0 = false then [TripEventKind.busStarted] else []

/-- The stop-transition emissions of lines 524-562, for one student whose
stop index on the route is `studentStopIndex`. -/
def stopEventsOf (running : Bool) (currentStopIndex prevStop studentStopIndex : Int) :
    List TripEventKind :=
  if running = true ∧ 0 ≤ currentStopIndex ∧ currentStopIndex ≠ prevStop
      ∧ 0 ≤ studentStopIndex then
    (if currentStopIndex = studentStopIndex - 1 then [TripEventKind.stopApproaching] else []) ++
    (if currentStopIndex = studentStopIndex then [TripEventKind.stopReached] else []) ++
    (if currentStopIndex = studentStopIndex + 1 ∧ prevStop = studentStopIndex then
      [TripEventKind.stopPassed] else [])
  else []

/-- Result of one callback invocation: the updated bookkeeping state, the
displayed bus state written by `setBusState`, and the notification events
added, in program order. -/
structure ProcResult where
  state : NotifState
  disp : BusStateDisp
  events : List TripEventKind
deriving Repr, DecidableEq

/-- One invocation of the RTDB subscription callback (lines 399-569) on a
non-null snapshot.  `now` is the wall clock (`Date.now()`), `route` the
value of `selectedRouteRef`, `selectedStopId` the logged-in student's
selected stop id (none when no student is logged in or none selected).

Faithful control flow: the displayed state is always written from the
snapshot; the notification block only runs when a student with a selected
stop is present and a route is loaded; the very first callback of a
subscription only initializes the bookkeeping; `busStartedNotified` is reset
whenever the snapshot is not actually running, the bus-started event fires
at most once per transition into running, stop events are gated on actually
running and a changed, resolved index, and `previousStopIndex` is updated
(to the resolved index, even -1) exactly when the snapshot is fresh. -/
def processSnapshot (now : Int) (route : Option Route) (selectedStopId : Option String)
    (st : NotifState) (data : BusData) : ProcResult :=
  let status := statusOf data
  let ts := tsOf now data
  let currentStopIndex := computeStopIndex data route
  let disp : BusStateDisp :=
    { status := status, currentStopIndex := currentStopIndex, lastUpdated := ts }
  match route with
  | none => { state := st, disp := disp, events := [] }
  | some currentRoute =>
    if truthyS selectedStopId = true then
      let running := isActuallyRunning now data
      if st.isFirstCallback = true then
        { state :=
            { isFirstCallback := false,
              busStartedNotified := if running = true then true else st.busStartedNotified,
              previousStopIndex := currentStopIndex },
          disp := disp, events := [] }
      else
        let notified0 := if running = true then st.busStartedNotified else false
        let startEvents := startEventsOf running notified0
        let notified1 := if running = true ∧ notified0 = false then true else notified0
        let studentStopIndex :=
          findIdxI (fun s => s.id == selectedStopId.getD "") currentRoute.stops
        let stopEvents := stopEventsOf running currentStopIndex st.previousStopIndex
          studentStopIndex
        let prev1 := if isFresh now data = true then currentStopIndex else st.previousStopIndex
        { state :=
            { isFirstCallback := st.isFirstCallback,
              busStartedNotified := notified1,
              previousStopIndex := prev1 },
          disp := disp, events := startEvents ++ stopEvents }
    else { state := st, disp := disp, events := [] }

/-- Deliver a list of timestamped snapshots in order, collecting all events. -/
def processAll (route : Option Route) (selectedStopId : Option String)
    (st : NotifState) : List (Int × BusData) → NotifState × List TripEventKind
  | [] => (st, [])
  | (n, d) :: rest =>
    let r := processSnapshot n route selectedStopId st d
    let tail := processAll route selectedStopId r.state rest
    (tail.1, r.events ++ tail.2)

/-! ### Cloud Function models (`functions/lib/index.js`) -/

/-- Outcome of one `admin.messaging().send` call: success, or an error
carrying an FCM error code string. -/
inductive SendOutcome where
  | ok
  | sendError (code : String)
deriving Repr, DecidableEq

/-- The two FCM error codes treated as permanent failures (lines 159-160). -/
def isPermanentCode (code : String) : Bool :=
  code == "messaging/invalid-registration-token"
    || code == "messaging/registration-token-not-registered"

/-- Whether a delivery outcome is a permanent failure. -/
def isPermanentFailure (o : SendOutcome) : Bool :=
  match o with
  | SendOutcome.ok => false
  | SendOutcome.sendError code => isPermanentCode code

/-- Whether a delivery outcome is a success. -/
def isOk (o : SendOutcome) : Bool :=
  match o with
  | SendOutcome.ok => true
  | SendOutcome.sendError _ => false

/-- One entry of the token list passed to `sendToTokens`. -/
structure TokenRec where
  studentId : String
  token : String
deriving Repr, DecidableEq

/-- The student directory slice the Cloud Function mutates: association
list from student id to registered FCM token (RTDB
`students/{id}/fcmToken`). -/
def StudentTokenDir := List (String × String)

/-- `sendToTokens` (lines 128-171): attempt delivery to every token;
successes are counted; a permanent failure deletes that student's
`fcmToken` from the directory; any other failure is logged and skipped.
`deliver` gives the outcome of the send for a token. -/
def sendToTokens (deliver : String → SendOutcome) (tokens : List TokenRec)
    (dir : StudentTokenDir) : Nat × StudentTokenDir :=
  tokens.foldl
    (fun acc t =>
      match deliver t.token with
      | SendOutcome.ok => (acc.1 + 1, acc.2)
      | SendOutcome.sendError code =>
        if isPermanentCode code = true then
          (acc.1, acc.2.filter fun e => !(e.1 == t.studentId))
        else acc)
    (0, dir)

/-- The stop events the `onBusCurrentStopChange` Cloud Function sends to
one student (lines 283-320), from the 1-based before/after `order` fields
and the student's 0-based stop index. -/
def cfStopEvents (beforeOrder afterOrder studentStopIndex : Int) : List TripEventKind :=
  let currentBusStopIndex := if 0 < afterOrder then afterOrder - 1 else -1
  let previousBusStopIndex := if 0 < beforeOrder then beforeOrder - 1 else -1
  (if currentBusStopIndex = studentStopIndex - 1 then [TripEventKind.stopApproaching] else []) ++
  (if currentBusStopIndex = studentStopIndex then [TripEventKind.stopReached] else []) ++
  (if currentBusStopIndex = studentStopIndex + 1
      ∧ previousBusStopIndex = studentStopIndex then [TripEventKind.stopPassed] else [])

/-! ### TrackingScreen read path (`src/screens/TrackingScreen.tsx`) -/

/-- The `realtimeLocation` object as read by `TrackingScreen` (coordinates
modelled as integers; only presence/zeroness matters to the embedded
logic). -/
structure RealtimeLoc where
  latitude : Option Int := none
  longitude : Option Int := none
  accuracy : Option Int := none
  routeState : Option String := none
  updatedAt : Option Int := none
  timestamp : Option Int := none
deriving Repr, DecidableEq

/-- JavaScript truthiness for an optional number: `undefined`/`null` and `0`
are falsy. -/
def truthyI (o : Option Int) : Bool :=
  match o with
  | some n => !(n == 0)
  | none => false

/-- `isCompletedButExpired` (lines 28-35): completed and last updated more
than 30 minutes ago. -/
def isCompletedButExpired (now : Int) (bs : BusStateDisp) : Bool :=
  if bs.status ≠ "completed" then false
  else decide (now - bs.lastUpdated > 30 * 60 * 1000)

/-- Lookup of `realtimeStops[stopId]` in the RTDB per-stop map. -/
def lookupStopEntry (stops : Option (List (String × RtdbStopEntry))) (id : String) :
    Option RtdbStopEntry :=
  stops.bind fun l => (l.find? fun e => e.1 == id).map fun e => e.2

/-- `getStopStatus` (lines 37-56): displayed status of the stop at `index`
on the selected route. -/
def getStopStatus (now : Int) (bs : BusStateDisp) (route : Route)
    (realtimeStops : Option (List (String × RtdbStopEntry))) (index : Nat) : String :=
  match route.stops.get? index with
  | none => "pending"
  | some stop =>
    if isCompletedButExpired now bs = true then "pending"
    else
      let base :=
        if bs.status = "not-started" then "pending"
        else if bs.status = "completed" then "reached"
        else if (index : Int) < bs.currentStopIndex then "reached"
        else if (index : Int) = bs.currentStopIndex then "current"
        else "pending"
      match (lookupStopEntry realtimeStops stop.id).bind RtdbStopEntry.status with
      | some s => if s = "reached" ∨ s = "current" ∨ s = "pending" then s else base
      | none => base

/-- `effectiveStatus` (line 59). -/
def effectiveStatus (now : Int) (bs : BusStateDisp) : String :=
  if isCompletedButExpired now bs = true then "not-started" else bs.status

/-- The map marker produced by `busPosition`. -/
structure BusPos where
  latitude : Int
  longitude : Int
  accuracy : Option Int
  timestamp : Int
deriving Repr, DecidableEq

/-- `busPosition` (lines 71-89): `null` without usable coordinates, when the
completed trip has expired, or when the route state is absent or
`not_started`. -/
def busPosition (now : Int) (bs : BusStateDisp) (loc : Option RealtimeLoc)
    (realtimeRouteState : Option String) : Option BusPos :=
  match loc with
  | none => none
  | some l =>
    if truthyI l.latitude = false ∨ truthyI l.longitude = false then none
    else if isCompletedButExpired now bs = true then none
    else
      match realtimeRouteState.orElse fun _ => l.routeState with
      | none => none
      | some s =>
        if s = "not_started" then none
        else
          some
            { latitude := l.latitude.getD 0, longitude := l.longitude.getD 0,
              accuracy := l.accuracy,
              timestamp := (l.updatedAt.orElse fun _ => l.timestamp).getD now }

/-! ### Helper lemmas -/

/-- The derived status is `running` exactly when the effective route state
string is `in_progress`. -/
theorem statusOf_running_iff (data : BusData) :
    statusOf data = "running" ↔ rsOf data = "in_progress" := by
  unfold statusOf
  split_ifs with h1 h2 <;> simp_all

/-- `isActuallyRunning` is the conjunction of derived-status `running` and
freshness. -/
theorem isActuallyRunning_iff (now : Int) (data : BusData) :
    isActuallyRunning now data = true ↔
      (statusOf data = "running" ∧ isFresh now data = true) := by
  unfold isActuallyRunning
  rw [Bool.and_eq_true, Bool.or_eq_true, beq_iff_eq, beq_iff_eq, statusOf_running_iff]
  tauto

/-- `findIdxI` returns -1 or an index inside the list. -/
theorem findIdxI_ok {α : Type} (p : α → Bool) (l : List α) :
    findIdxI p l = -1 ∨ (0 ≤ findIdxI p l ∧ findIdxI p l < (l.length : Int)) := by
  induction l with
  | nil => exact Or.inl rfl
  | cons a l ih =>
    simp only [findIdxI, List.length_cons]
    rcases ih with h | h
    · split_ifs with h1 h2
      · right
        constructor
        · omega
        · push_cast
          omega
      · left
        rfl
      · exfalso
        omega
    · split_ifs with h1 h2
      · right
        constructor
        · omega
        · push_cast
          omega
      · exfalso
        omega
      · obtain ⟨ha, hb⟩ := h
        right
        constructor
        · omega
        · push_cast
          omega

/-- `findIdxI` returns -1 or a nonnegative value. -/
theorem findIdxI_neg_one_or_nonneg {α : Type} (p : α → Bool) (l : List α) :
    findIdxI p l = -1 ∨ 0 ≤ findIdxI p l := by
  rcases findIdxI_ok p l with h | h
  · exact Or.inl h
  · exact Or.inr h.1

/-- The `current`-entry fallback chain returns -1 or a nonnegative index. -/
theorem resolveFromCurrentEntry_ok (current : String × RtdbStopEntry) (stops : List Stop) :
    resolveFromCurrentEntry current stops = -1 ∨ 0 ≤ resolveFromCurrentEntry current stops := by
  unfold resolveFromCurrentEntry
  dsimp only
  split_ifs <;>
    first
      | exact Or.inr (le_max_left 0 _)
      | exact findIdxI_neg_one_or_nonneg _ stops

/-- The per-stop-status branch returns -1 or a nonnegative index. -/
theorem resolveFromPerStop_ok (data : BusData) (stops : List Stop) :
    resolveFromPerStop data stops = -1 ∨ 0 ≤ resolveFromPerStop data stops := by
  unfold resolveFromPerStop
  rcases data.stops with _ | entries
  · exact Or.inl rfl
  · dsimp only
    cases entries.find? (fun e => e.2.status == some "current") with
    | none => exact Or.inl rfl
    | some current => exact resolveFromCurrentEntry_ok current stops

/-- The `currentStop` fallback chain returns -1 or a nonnegative index,
provided the incoming unresolved value does. -/
theorem resolveFromCurrentStop_ok (cs : RtdbCurrentStop) (iA : Int) (stops : List Stop)
    (h : iA = -1 ∨ 0 ≤ iA) :
    resolveFromCurrentStop cs iA stops = -1 ∨ 0 ≤ resolveFromCurrentStop cs iA stops := by
  unfold resolveFromCurrentStop
  dsimp only
  split_ifs <;>
    first
      | exact h
      | exact Or.inr (le_max_left 0 _)
      | exact findIdxI_neg_one_or_nonneg _ stops

/-- The pre-clamp resolution chain returns -1 or a nonnegative index. -/
theorem rawStopIndex_ok (data : BusData) (stops : List Stop) :
    rawStopIndex data stops = -1 ∨ 0 ≤ rawStopIndex data stops := by
  unfold rawStopIndex
  rcases data.currentStop with _ | cs <;> dsimp only
  · exact resolveFromPerStop_ok data stops
  · split_ifs with h
    · exact resolveFromCurrentStop_ok cs _ stops (resolveFromPerStop_ok data stops)
    · exact resolveFromPerStop_ok data stops

/-- Characterization of the callback on the first callback of a
subscription (lines 487-500), with a student and route present. -/
theorem processSnapshot_first (now : Int) (r : Route) (sid : Option String)
    (st : NotifState) (data : BusData)
    (hfc : st.isFirstCallback = true) (hsid : truthyS sid = true) :
    processSnapshot now (some r) sid st data =
      { state :=
          { isFirstCallback := false,
            busStartedNotified :=
              if isActuallyRunning now data = true then true else st.busStartedNotified,
            previousStopIndex := computeStopIndex data (some r) },
        disp :=
          { status := statusOf data, currentStopIndex := computeStopIndex data (some r),
            lastUpdated := tsOf now data },
        events := [] } := by
  unfold processSnapshot
  simp only [hsid, hfc, if_true, ite_true]

/-- Characterization of the callback on subsequent callbacks
(lines 502-569), with a student and route present. -/
theorem processSnapshot_later (now : Int) (r : Route) (sid : Option String)
    (st : NotifState) (data : BusData)
    (hfc : st.isFirstCallback = false) (hsid : truthyS sid = true) :
    processSnapshot now (some r) sid st data =
      { state :=
          { isFirstCallback := false,
            busStartedNotified := isActuallyRunning now data,
            previousStopIndex :=
              if isFresh now data = true then computeStopIndex data (some r)
              else st.previousStopIndex },
        disp :=
          { status := statusOf data, currentStopIndex := computeStopIndex data (some r),
            lastUpdated := tsOf now data },
        events :=
          startEventsOf (isActuallyRunning now data)
              (if isActuallyRunning now data = true then st.busStartedNotified else false) ++
            stopEventsOf (isActuallyRunning now data) (computeStopIndex data (some r))
              st.previousStopIndex (findIdxI (fun s => s.id == sid.getD "") r.stops) } := by
  unfold processSnapshot
  simp only [hsid, hfc, if_true, ite_true, Bool.false_eq_true, if_false, ite_false]
  rcases hrun : isActuallyRunning now data with _ | _ <;>
    rcases hn : st.busStartedNotified with _ | _ <;>
    simp [hrun, hn]

/-- Bus-started emission count. -/
theorem startEventsOf_count_busStarted (running notified0 : Bool) :
    (startEventsOf running notified0).count TripEventKind.busStarted =
      if running = true ∧ notified0 = false then 1 else 0 := by
  unfold startEventsOf
  split_ifs <;> rfl

/-- The bus-started emission contains no stop events. -/
theorem startEventsOf_count_other (running notified0 : Bool) (k : TripEventKind)
    (hk : k ≠ TripEventKind.busStarted) :
    (startEventsOf running notified0).count k = 0 := by
  unfold startEventsOf
  split_ifs
  · cases k
    · exact absurd rfl hk
    · rfl
    · rfl
    · rfl
  · rfl

/-- Stop events never include a bus-started event. -/
theorem stopEventsOf_count_busStarted (running : Bool) (i p s : Int) :
    (stopEventsOf running i p s).count TripEventKind.busStarted = 0 := by
  unfold stopEventsOf
  split_ifs <;> rfl

/-- Approaching-event count of the stop-transition block. -/
theorem stopEventsOf_count_approaching (running : Bool) (i p s : Int) :
    (stopEventsOf running i p s).count TripEventKind.stopApproaching =
      if running = true ∧ 0 ≤ i ∧ i ≠ p ∧ 0 ≤ s ∧ i = s - 1 then 1 else 0 := by
  unfold stopEventsOf
  split_ifs <;> first | rfl | (exfalso; tauto)

/-- Arrived-event count of the stop-transition block. -/
theorem stopEventsOf_count_reached (running : Bool) (i p s : Int) :
    (stopEventsOf running i p s).count TripEventKind.stopReached =
      if running = true ∧ 0 ≤ i ∧ i ≠ p ∧ 0 ≤ s ∧ i = s then 1 else 0 := by
  unfold stopEventsOf
  split_ifs <;> first | rfl | (exfalso; tauto)

/-- Passed-event count of the stop-transition block. -/
theorem stopEventsOf_count_passed (running : Bool) (i p s : Int) :
    (stopEventsOf running i p s).count TripEventKind.stopPassed =
      if running = true ∧ 0 ≤ i ∧ i ≠ p ∧ 0 ≤ s ∧ i = s + 1 ∧ p = s then 1 else 0 := by
  unfold stopEventsOf
  split_ifs <;> first | rfl | (exfalso; tauto)

/-- Stale snapshots are never actually-running. -/
theorem isActuallyRunning_false_of_stale (now : Int) (data : BusData)
    (h : isFresh now data = false) : isActuallyRunning now data = false := by
  unfold isActuallyRunning
  rw [h, Bool.and_false]

/-- No bus-started emission when not actually running. -/
theorem startEventsOf_false (notified0 : Bool) : startEventsOf false notified0 = [] := by
  unfold startEventsOf
  rw [if_neg]
  rintro ⟨h, -⟩
  exact Bool.false_ne_true h

/-- No stop-transition emission when not actually running. -/
theorem stopEventsOf_false (i p s : Int) : stopEventsOf false i p s = [] := by
  unfold stopEventsOf
  rw [if_neg]
  rintro ⟨h, -⟩
  exact Bool.false_ne_true h

/-- No stop-transition emission when the resolved index is unresolved. -/
theorem stopEventsOf_neg (running : Bool) (i p s : Int) (h : i < 0) :
    stopEventsOf running i p s = [] := by
  unfold stopEventsOf
  rw [if_neg]
  rintro ⟨-, h2, -⟩
  omega

/-- The callback without a logged-in student (or without a selected stop)
only updates the displayed state. -/
theorem processSnapshot_no_student (now : Int) (r : Route) (sid : Option String)
    (st : NotifState) (data : BusData) (h : truthyS sid = false) :
    processSnapshot now (some r) sid st data =
      { state := st,
        disp :=
          { status := statusOf data, currentStopIndex := computeStopIndex data (some r),
            lastUpdated := tsOf now data },
        events := [] } := by
  unfold processSnapshot
  simp only [h, Bool.false_eq_true, if_false, ite_false]

/-! ### Concrete fixtures used by counterexamples and witnesses -/

/-- Example route with three stops A, B, C. -/
def exRoute : Route := ⟨[⟨"a", "A"⟩, ⟨"b", "B"⟩, ⟨"c", "C"⟩]⟩

/-- Example route with five stops A..E. -/
def fiveStopRoute : Route :=
  ⟨[⟨"a", "A"⟩, ⟨"b", "B"⟩, ⟨"c", "C"⟩, ⟨"d", "D"⟩, ⟨"e", "E"⟩]⟩

/-- A fresh in-progress snapshot whose per-stop map marks the entry keyed
`k` as current (timestamp 500). -/
def runningDataAt (k : String) : BusData :=
  { routeState := some "in_progress", location := { updatedAt := some 500 },
    stops := some [(k, { status := some "current" })] }

/-- An in-progress snapshot with source timestamp 0 (stale for any
processing time at or past the five-minute window). -/
def staleRunningData : BusData :=
  { routeState := some "in_progress", location := { updatedAt := some 0 } }

/-- A fresh not-started snapshot (timestamp 500). -/
def notStartedData : BusData :=
  { routeState := some "not_started", location := { updatedAt := some 500 } }

/-- A fresh in-progress snapshot carrying no stop information at all, so
the resolver returns -1. -/
def unresolvedRunningData : BusData :=
  { routeState := some "in_progress", location := { updatedAt := some 500 } }

/-! ### C10 -/

/-- C10: after processing any snapshot against a loaded route, the computed
`currentStopIndex` is -1 or lies in `[0, len(stops) - 1]`: the ordinal
fallback is floored at 0 and indices past the end are clamped to the last
stop. -/
theorem claim_C10_stop_index_range (data : BusData) (r : Route) :
    computeStopIndex data (some r) = -1 ∨
      (0 ≤ computeStopIndex data (some r) ∧
        computeStopIndex data (some r) ≤ (r.stops.length : Int) - 1) := by
  unfold computeStopIndex
  dsimp only
  rcases rawStopIndex_ok data r.stops with h | h <;> split_ifs with hc <;> omega

/-! ### C4 -/

/-- C4: a snapshot older than the five-minute staleness window emits no
notification events at all — in particular no BUS_STARTED and no
stop-transition event — even though the displayed bus state (status,
current stop index, last-updated timestamp) is still overwritten from it. -/
theorem claim_C4_staleness_gate (now : Int) (r : Route) (sid : Option String)
    (st : NotifState) (data : BusData) (hstale : isFresh now data = false) :
    (processSnapshot now (some r) sid st data).events = [] ∧
      (processSnapshot now (some r) sid st data).disp =
        { status := statusOf data, currentStopIndex := computeStopIndex data (some r),
          lastUpdated := tsOf now data } := by
  have hrun : isActuallyRunning now data = false :=
    isActuallyRunning_false_of_stale now data hstale
  by_cases htr : truthyS sid = true
  · by_cases hfc : st.isFirstCallback = true
    · rw [processSnapshot_first now r sid st data hfc htr]
      exact ⟨rfl, rfl⟩
    · rw [processSnapshot_later now r sid st data (by simpa using hfc) htr]
      refine ⟨?_, rfl⟩
      dsimp only
      rw [hrun, startEventsOf_false, stopEventsOf_false]
      rfl
  · rw [processSnapshot_no_student now r sid st data (by simpa using htr)]
    exact ⟨rfl, rfl⟩

/-- C4 witness: a concrete stale snapshot (timestamp 0 processed at time
10^6) updates the displayed state but emits nothing. -/
theorem claim_C4_staleness_gate_witness :
    (processSnapshot 1000000 (some exRoute) (some "b")
        { isFirstCallback := false, busStartedNotified := false, previousStopIndex := 0 }
        staleRunningData).events = [] ∧
      (processSnapshot 1000000 (some exRoute) (some "b")
          { isFirstCallback := false, busStartedNotified := false, previousStopIndex := 0 }
          staleRunningData).disp =
        { status := statusOf staleRunningData,
          currentStopIndex := computeStopIndex staleRunningData (some exRoute),
          lastUpdated := tsOf 1000000 staleRunningData } :=
  claim_C4_staleness_gate 1000000 exRoute (some "b")
    { isFirstCallback := false, busStartedNotified := false, previousStopIndex := 0 }
    staleRunningData (by decide)

/-! ### C1 -/

/-- C1 counterexample: the very first snapshot after subscribing, with
derived status RUNNING but a stale source timestamp (0, processed at time
10^6), does NOT set `busStartedNotified` — refuting the claim that the
first snapshot sets `busStartedNotified = true` exactly when the derived
status is RUNNING.  (The zero-events part does hold, as shown.) -/
theorem claim_C1_counterexample :
    statusOf staleRunningData = "running" ∧
      (processSnapshot 1000000 (some exRoute) (some "b") initialNotifState
          staleRunningData).state.busStartedNotified = false ∧
      (processSnapshot 1000000 (some exRoute) (some "b") initialNotifState
          staleRunningData).events = [] := by
  decide

/-- C1 (amended): the first snapshot delivered after subscribing (with a
logged-in student having a selected stop and a loaded route) emits zero
notification events regardless of its status, clears the first-callback
flag, records the snapshot's resolved stop index as the previous stop
index, and sets `busStartedNotified` to true exactly when the derived
status is RUNNING *and the snapshot is fresh* (within the five-minute
window); a stale snapshot leaves the flag at its prior value. -/
theorem claim_C1_amended (now : Int) (r : Route) (sid : Option String)
    (st : NotifState) (data : BusData)
    (hfc : st.isFirstCallback = true) (hn : st.busStartedNotified = false)
    (hsid : truthyS sid = true) :
    (processSnapshot now (some r) sid st data).events = [] ∧
      (processSnapshot now (some r) sid st data).state.isFirstCallback = false ∧
      (processSnapshot now (some r) sid st data).state.previousStopIndex =
        computeStopIndex data (some r) ∧
      ((processSnapshot now (some r) sid st data).state.busStartedNotified = true ↔
        (statusOf data = "running" ∧ isFresh now data = true)) := by
  rw [processSnapshot_first now r sid st data hfc hsid]
  refine ⟨rfl, rfl, rfl, ?_⟩
  dsimp only
  rw [hn]
  split_ifs with hrun
  · simp only [true_iff]
    exact (isActuallyRunning_iff now data).mp hrun
  · simp only [Bool.false_eq_true, false_iff]
    intro hC
    exact hrun ((isActuallyRunning_iff now data).mpr hC)

/-- C1 witness: a concrete fresh running first snapshot initializes the
state with `busStartedNotified = true` and emits nothing. -/
theorem claim_C1_amended_witness :
    (processSnapshot 1000 (some exRoute) (some "b") initialNotifState
        (runningDataAt "a")).events = [] ∧
      (processSnapshot 1000 (some exRoute) (some "b") initialNotifState
          (runningDataAt "a")).state.isFirstCallback = false ∧
      (processSnapshot 1000 (some exRoute) (some "b") initialNotifState
          (runningDataAt "a")).state.previousStopIndex =
        computeStopIndex (runningDataAt "a") (some exRoute) ∧
      ((processSnapshot 1000 (some exRoute) (some "b") initialNotifState
            (runningDataAt "a")).state.busStartedNotified = true ↔
        (statusOf (runningDataAt "a") = "running" ∧ isFresh 1000 (runningDataAt "a") = true)) :=
  claim_C1_amended 1000 exRoute (some "b") initialNotifState (runningDataAt "a")
    rfl rfl (by decide)

/-! ### C2 -/

/-- Once `busStartedNotified` holds, a run of fresh running snapshots emits
no further bus-started event and keeps the flag set. -/
theorem processAll_started_absorbed (r : Route) (sid : Option String) (st : NotifState)
    (l : List (Int × BusData)) (hfc : st.isFirstCallback = false)
    (hn : st.busStartedNotified = true) (hsid : truthyS sid = true)
    (hl : ∀ x ∈ l, statusOf x.2 = "running" ∧ isFresh x.1 x.2 = true) :
    (processAll (some r) sid st l).2.count TripEventKind.busStarted = 0 ∧
      (processAll (some r) sid st l).1.busStartedNotified = true ∧
      (processAll (some r) sid st l).1.isFirstCallback = false := by
  induction l generalizing st with
  | nil => exact ⟨rfl, hn, hfc⟩
  | cons x rest ih =>
    obtain ⟨n, d⟩ := x
    obtain ⟨hs, hf⟩ := hl (n, d) (List.mem_cons_self (n, d) rest)
    have hrun : isActuallyRunning n d = true := (isActuallyRunning_iff n d).mpr ⟨hs, hf⟩
    simp only [processAll]
    rw [processSnapshot_later n r sid st d hfc hsid]
    dsimp only
    have hrest :=
      ih { isFirstCallback := false, busStartedNotified := isActuallyRunning n d,
            previousStopIndex :=
              if isFresh n d = true then computeStopIndex d (some r)
              else st.previousStopIndex }
        rfl hrun (fun y hy => hl y (List.mem_cons_of_mem (n, d) hy))
    refine ⟨?_, hrest.2.1, hrest.2.2⟩
    rw [List.count_append, hrest.1, List.count_append,
      startEventsOf_count_busStarted, stopEventsOf_count_busStarted]
    have hcond : ¬(isActuallyRunning n d = true ∧
        (if isActuallyRunning n d = true then st.busStartedNotified else false) = false) := by
      rintro ⟨-, habs⟩
      simp [hrun, hn] at habs
    rw [if_neg hcond]

/-- C2 counterexample: `busStartedNotified` is reset by a *stale* snapshot
whose derived status is still RUNNING — refuting the claim that the flag is
reset only when the status transitions away from RUNNING.  After a fresh
running snapshot the flag is true; processing a stale snapshot with status
"running" resets it to false. -/
theorem claim_C2_counterexample :
    (processSnapshot 1000 (some exRoute) (some "b")
        { isFirstCallback := false, busStartedNotified := false, previousStopIndex := -1 }
        (runningDataAt "a")).state.busStartedNotified = true ∧
      statusOf staleRunningData = "running" ∧
      (processSnapshot 1000000 (some exRoute) (some "b")
          (processSnapshot 1000 (some exRoute) (some "b")
              { isFirstCallback := false, busStartedNotified := false, previousStopIndex := -1 }
              (runningDataAt "a")).state
          staleRunningData).state.busStartedNotified = false := by
  decide

/-- C2 (amended): over any nonempty sequence of fresh snapshots with
derived status RUNNING delivered after initialization with
`busStartedNotified = false`, exactly one BUS_STARTED event is emitted and
the flag ends true; and the flag is reset to false by processing any
snapshot that is not actually running — that is, whose status is not
RUNNING *or* which is stale — not only by status transitions away from
RUNNING. -/
theorem claim_C2_amended (r : Route) (sid : Option String) (st : NotifState)
    (l : List (Int × BusData)) (now2 : Int) (st2 : NotifState) (d2 : BusData)
    (hfc : st.isFirstCallback = false) (hn : st.busStartedNotified = false)
    (hsid : truthyS sid = true) (hne : l ≠ [])
    (hl : ∀ x ∈ l, statusOf x.2 = "running" ∧ isFresh x.1 x.2 = true)
    (hfc2 : st2.isFirstCallback = false)
    (hnotrun2 : isActuallyRunning now2 d2 = false) :
    (processAll (some r) sid st l).2.count TripEventKind.busStarted = 1 ∧
      (processAll (some r) sid st l).1.busStartedNotified = true ∧
      (processSnapshot now2 (some r) sid st2 d2).state.busStartedNotified = false := by
  refine ?_
  have hreset : (processSnapshot now2 (some r) sid st2 d2).state.busStartedNotified = false := by
    rw [processSnapshot_later now2 r sid st2 d2 hfc2 hsid]
    exact hnotrun2
  cases l with
  | nil => exact absurd rfl hne
  | cons x rest =>
    obtain ⟨n, d⟩ := x
    obtain ⟨hs, hf⟩ := hl (n, d) (List.mem_cons_self (n, d) rest)
    have hrun : isActuallyRunning n d = true := (isActuallyRunning_iff n d).mpr ⟨hs, hf⟩
    simp only [processAll]
    rw [processSnapshot_later n r sid st d hfc hsid]
    dsimp only
    have hrest :=
      processAll_started_absorbed r sid
        { isFirstCallback := false, busStartedNotified := isActuallyRunning n d,
          previousStopIndex :=
            if isFresh n d = true then computeStopIndex d (some r)
            else st.previousStopIndex }
        rest rfl hrun hsid (fun y hy => hl y (List.mem_cons_of_mem (n, d) hy))
    refine ⟨?_, hrest.2.1, hreset⟩
    rw [List.count_append, hrest.1, List.count_append,
      startEventsOf_count_busStarted, stopEventsOf_count_busStarted]
    have hcond : isActuallyRunning n d = true ∧
        (if isActuallyRunning n d = true then st.busStartedNotified else false) = false := by
      refine ⟨hrun, ?_⟩
      simp [hrun, hn]
    rw [if_pos hcond]

/-- C2 witness: two fresh running snapshots starting from an initialized,
not-yet-notified state emit exactly one bus-started event, and a stale
running snapshot resets the flag. -/
theorem claim_C2_amended_witness :
    (processAll (some exRoute) (some "b")
          { isFirstCallback := false, busStartedNotified := false, previousStopIndex := -1 }
          [(1000, runningDataAt "a"), (1000, runningDataAt "b")]).2.count
        TripEventKind.busStarted = 1 ∧
      (processAll (some exRoute) (some "b")
          { isFirstCallback := false, busStartedNotified := false, previousStopIndex := -1 }
          [(1000, runningDataAt "a"), (1000, runningDataAt "b")]).1.busStartedNotified = true ∧
      (processSnapshot 1000000 (some exRoute) (some "b")
          { isFirstCallback := false, busStartedNotified := true, previousStopIndex := 0 }
          staleRunningData).state.busStartedNotified = false :=
  claim_C2_amended exRoute (some "b")
    { isFirstCallback := false, busStartedNotified := false, previousStopIndex := -1 }
    [(1000, runningDataAt "a"), (1000, runningDataAt "b")] 1000000
    { isFirstCallback := false, busStartedNotified := true, previousStopIndex := 0 }
    staleRunningData rfl rfl (by decide) (by decide) (by decide) rfl (by decide)

/-! ### C5 / C6 / C7 supporting lemmas -/

/-- Evaluated approaching count: exactly one when the bus is one stop
before the student's and the index changed. -/
theorem stopEventsOf_approaching_one (i p s : Int) (h0 : 0 ≤ i) (hne : i ≠ p)
    (h0s : 0 ≤ s) (hi : i = s - 1) :
    (stopEventsOf true i p s).count TripEventKind.stopApproaching = 1 := by
  rw [stopEventsOf_count_approaching, if_pos ⟨rfl, h0, hne, h0s, hi⟩]

/-- No approaching event when the index is not one before the student's. -/
theorem stopEventsOf_approaching_zero (running : Bool) (i p s : Int) (hi : i ≠ s - 1) :
    (stopEventsOf running i p s).count TripEventKind.stopApproaching = 0 := by
  rw [stopEventsOf_count_approaching, if_neg]
  rintro ⟨-, -, -, -, h5⟩
  exact hi h5

/-- Evaluated arrived count: exactly one when the bus reaches the student's
stop with a changed index. -/
theorem stopEventsOf_reached_one (i p s : Int) (h0 : 0 ≤ i) (hne : i ≠ p)
    (h0s : 0 ≤ s) (hi : i = s) :
    (stopEventsOf true i p s).count TripEventKind.stopReached = 1 := by
  rw [stopEventsOf_count_reached, if_pos ⟨rfl, h0, hne, h0s, hi⟩]

/-- No arrived event when the index is not the student's stop. -/
theorem stopEventsOf_reached_zero (running : Bool) (i p s : Int) (hi : i ≠ s) :
    (stopEventsOf running i p s).count TripEventKind.stopReached = 0 := by
  rw [stopEventsOf_count_reached, if_neg]
  rintro ⟨-, -, -, -, h5⟩
  exact hi h5

/-- Evaluated passed count: exactly one when the bus steps one past the
student's stop with the previous index exactly at the student's stop. -/
theorem stopEventsOf_passed_one (i p s : Int) (h0 : 0 ≤ i) (hne : i ≠ p)
    (h0s : 0 ≤ s) (hi : i = s + 1) (hp : p = s) :
    (stopEventsOf true i p s).count TripEventKind.stopPassed = 1 := by
  rw [stopEventsOf_count_passed, if_pos ⟨rfl, h0, hne, h0s, hi, hp⟩]

/-- No passed event unless the index is one past the student's stop with
the previous index exactly at it. -/
theorem stopEventsOf_passed_zero (running : Bool) (i p s : Int)
    (hi : ¬(i = s + 1 ∧ p = s)) :
    (stopEventsOf running i p s).count TripEventKind.stopPassed = 0 := by
  rw [stopEventsOf_count_passed, if_neg]
  rintro ⟨-, -, -, -, h5, h6⟩
  exact hi ⟨h5, h6⟩

/-- On a non-first callback, the count of any non-bus-started event kind is
that of the stop-transition block. -/
theorem processSnapshot_later_stop_count (now : Int) (r : Route) (sid : Option String)
    (st : NotifState) (data : BusData) (k : TripEventKind)
    (hfc : st.isFirstCallback = false) (hsid : truthyS sid = true)
    (hk : k ≠ TripEventKind.busStarted) :
    (processSnapshot now (some r) sid st data).events.count k =
      (stopEventsOf (isActuallyRunning now data) (computeStopIndex data (some r))
          st.previousStopIndex (findIdxI (fun s => s.id == sid.getD "") r.stops)).count k := by
  rw [processSnapshot_later now r sid st data hfc hsid]
  dsimp only
  rw [List.count_append, startEventsOf_count_other _ _ k hk, Nat.zero_add]

/-- On a non-first callback with a fresh snapshot, the recorded previous
stop index becomes the snapshot's resolved index. -/
theorem processSnapshot_later_prev (now : Int) (r : Route) (sid : Option String)
    (st : NotifState) (data : BusData)
    (hfc : st.isFirstCallback = false) (hsid : truthyS sid = true)
    (hf : isFresh now data = true) :
    (processSnapshot now (some r) sid st data).state.previousStopIndex =
      computeStopIndex data (some r) := by
  rw [processSnapshot_later now r sid st data hfc hsid]
  dsimp only
  rw [if_pos hf]

/-- A non-first callback leaves the first-callback flag cleared. -/
theorem processSnapshot_later_fc (now : Int) (r : Route) (sid : Option String)
    (st : NotifState) (data : BusData)
    (hfc : st.isFirstCallback = false) (hsid : truthyS sid = true) :
    (processSnapshot now (some r) sid st data).state.isFirstCallback = false := by
  rw [processSnapshot_later now r sid st data hfc hsid]

/-! ### C5 -/

/-- C5 counterexample: the claim fails for an initialization whose recorded
stop index is already s-1.  Student at stop index s = 1 (stop "b") on the
example route; the subscription initializes from a fresh running snapshot
resolving to 0 = s-1; the next fresh running snapshot also resolves to s-1,
and — contrary to the claim — zero STOP_APPROACHING events are emitted for
it, because the index did not change. -/
theorem claim_C5_counterexample :
    (processSnapshot 1000 (some exRoute) (some "b") initialNotifState
        (runningDataAt "a")).state.isFirstCallback = false ∧
      statusOf (runningDataAt "a") = "running" ∧
      isFresh 1000 (runningDataAt "a") = true ∧
      computeStopIndex (runningDataAt "a") (some exRoute) = 0 ∧
      findIdxI (fun t => t.id == "b") exRoute.stops = 1 ∧
      (processSnapshot 1000 (some exRoute) (some "b")
          (processSnapshot 1000 (some exRoute) (some "b") initialNotifState
              (runningDataAt "a")).state
          (runningDataAt "a")).events.count TripEventKind.stopApproaching = 0 := by
  decide

/-- C5 (amended): for a student at stop index s (1 ≤ s ≤ len-2), after
initialization, three consecutive fresh RUNNING snapshots resolving to
s-1, s, s+1 produce exactly one STOP_APPROACHING for the first, exactly one
STOP_ARRIVED for the second and exactly one STOP_PASSED for the third (and
no other stop-transition events), *provided the recorded previous stop
index is not already s-1 when the first of the three arrives*; the recorded
index becomes s before the move to s+1, which is what lets STOP_PASSED
fire. -/
theorem claim_C5_amended (n1 n2 n3 : Int) (r : Route) (sid : Option String)
    (st : NotifState) (d1 d2 d3 : BusData) (s : Int)
    (hfc : st.isFirstCallback = false) (hsid : truthyS sid = true)
    (hs1 : 1 ≤ s) (hs2 : s ≤ (r.stops.length : Int) - 2)
    (hstu : findIdxI (fun t => t.id == sid.getD "") r.stops = s)
    (hprev : st.previousStopIndex ≠ s - 1)
    (h1 : statusOf d1 = "running") (hf1 : isFresh n1 d1 = true)
    (hc1 : computeStopIndex d1 (some r) = s - 1)
    (h2 : statusOf d2 = "running") (hf2 : isFresh n2 d2 = true)
    (hc2 : computeStopIndex d2 (some r) = s)
    (h3 : statusOf d3 = "running") (hf3 : isFresh n3 d3 = true)
    (hc3 : computeStopIndex d3 (some r) = s + 1) :
    ((processSnapshot n1 (some r) sid st d1).events.count TripEventKind.stopApproaching = 1 ∧
      (processSnapshot n1 (some r) sid st d1).events.count TripEventKind.stopReached = 0 ∧
      (processSnapshot n1 (some r) sid st d1).events.count TripEventKind.stopPassed = 0) ∧
    ((processSnapshot n2 (some r) sid
          (processSnapshot n1 (some r) sid st d1).state d2).events.count
        TripEventKind.stopApproaching = 0 ∧
      (processSnapshot n2 (some r) sid
          (processSnapshot n1 (some r) sid st d1).state d2).events.count
        TripEventKind.stopReached = 1 ∧
      (processSnapshot n2 (some r) sid
          (processSnapshot n1 (some r) sid st d1).state d2).events.count
        TripEventKind.stopPassed = 0) ∧
    ((processSnapshot n3 (some r) sid
          (processSnapshot n2 (some r) sid
              (processSnapshot n1 (some r) sid st d1).state d2).state d3).events.count
        TripEventKind.stopApproaching = 0 ∧
      (processSnapshot n3 (some r) sid
          (processSnapshot n2 (some r) sid
              (processSnapshot n1 (some r) sid st d1).state d2).state d3).events.count
        TripEventKind.stopReached = 0 ∧
      (processSnapshot n3 (some r) sid
          (processSnapshot n2 (some r) sid
              (processSnapshot n1 (some r) sid st d1).state d2).state d3).events.count
        TripEventKind.stopPassed = 1) := by
  have hrun1 : isActuallyRunning n1 d1 = true := (isActuallyRunning_iff n1 d1).mpr ⟨h1, hf1⟩
  have hrun2 : isActuallyRunning n2 d2 = true := (isActuallyRunning_iff n2 d2).mpr ⟨h2, hf2⟩
  have hrun3 : isActuallyRunning n3 d3 = true := (isActuallyRunning_iff n3 d3).mpr ⟨h3, hf3⟩
  have fc1 : (processSnapshot n1 (some r) sid st d1).state.isFirstCallback = false :=
    processSnapshot_later_fc n1 r sid st d1 hfc hsid
  have prev1 : (processSnapshot n1 (some r) sid st d1).state.previousStopIndex = s - 1 := by
    rw [processSnapshot_later_prev n1 r sid st d1 hfc hsid hf1, hc1]
  have fc2 : (processSnapshot n2 (some r) sid
      (processSnapshot n1 (some r) sid st d1).state d2).state.isFirstCallback = false :=
    processSnapshot_later_fc n2 r sid _ d2 fc1 hsid
  have prev2 : (processSnapshot n2 (some r) sid
      (processSnapshot n1 (some r) sid st d1).state d2).state.previousStopIndex = s := by
    rw [processSnapshot_later_prev n2 r sid _ d2 fc1 hsid hf2, hc2]
  refine ⟨⟨?_, ?_, ?_⟩, ⟨?_, ?_, ?_⟩, ⟨?_, ?_, ?_⟩⟩
  · rw [processSnapshot_later_stop_count n1 r sid st d1 _ hfc hsid (by decide), hrun1, hc1, hstu]
    exact stopEventsOf_approaching_one (s - 1) st.previousStopIndex s (by omega)
      (fun h => hprev h.symm) (by omega) rfl
  · rw [processSnapshot_later_stop_count n1 r sid st d1 _ hfc hsid (by decide), hc1, hstu]
    exact stopEventsOf_reached_zero _ (s - 1) st.previousStopIndex s (by omega)
  · rw [processSnapshot_later_stop_count n1 r sid st d1 _ hfc hsid (by decide), hc1, hstu]
    exact stopEventsOf_passed_zero _ (s - 1) st.previousStopIndex s (by omega)
  · rw [processSnapshot_later_stop_count n2 r sid _ d2 _ fc1 hsid (by decide), hc2, hstu]
    exact stopEventsOf_approaching_zero _ s _ s (by omega)
  · rw [processSnapshot_later_stop_count n2 r sid _ d2 _ fc1 hsid (by decide), hrun2, hc2, hstu,
      prev1]
    exact stopEventsOf_reached_one s (s - 1) s (by omega) (by omega) (by omega) rfl
  · rw [processSnapshot_later_stop_count n2 r sid _ d2 _ fc1 hsid (by decide), hc2, hstu, prev1]
    exact stopEventsOf_passed_zero _ s (s - 1) s (by omega)
  · rw [processSnapshot_later_stop_count n3 r sid _ d3 _ fc2 hsid (by decide), hc3, hstu]
    exact stopEventsOf_approaching_zero _ (s + 1) _ s (by omega)
  · rw [processSnapshot_later_stop_count n3 r sid _ d3 _ fc2 hsid (by decide), hc3, hstu]
    exact stopEventsOf_reached_zero _ (s + 1) _ s (by omega)
  · rw [processSnapshot_later_stop_count n3 r sid _ d3 _ fc2 hsid (by decide), hrun3, hc3, hstu,
      prev2]
    exact stopEventsOf_passed_one (s + 1) s s (by omega) (by omega) (by omega) rfl rfl

/-- C5 witness: the concrete three-stop route with the student at stop
index 1 and snapshots resolving to 0, 1, 2 produces approaching, arrived,
passed — exactly one each, in order. -/
theorem claim_C5_amended_witness :
    (((processSnapshot 1000 (some exRoute) (some "b")
          { isFirstCallback := false, busStartedNotified := true, previousStopIndex := -1 }
          (runningDataAt "a")).events.count TripEventKind.stopApproaching = 1 ∧
        (processSnapshot 1000 (some exRoute) (some "b")
            { isFirstCallback := false, busStartedNotified := true, previousStopIndex := -1 }
            (runningDataAt "a")).events.count TripEventKind.stopReached = 0 ∧
        (processSnapshot 1000 (some exRoute) (some "b")
            { isFirstCallback := false, busStartedNotified := true, previousStopIndex := -1 }
            (runningDataAt "a")).events.count TripEventKind.stopPassed = 0) ∧
      ((processSnapshot 1001 (some exRoute) (some "b")
            (processSnapshot 1000 (some exRoute) (some "b")
                { isFirstCallback := false, busStartedNotified := true, previousStopIndex := -1 }
                (runningDataAt "a")).state (runningDataAt "b")).events.count
          TripEventKind.stopApproaching = 0 ∧
        (processSnapshot 1001 (some exRoute) (some "b")
            (processSnapshot 1000 (some exRoute) (some "b")
                { isFirstCallback := false, busStartedNotified := true, previousStopIndex := -1 }
                (runningDataAt "a")).state (runningDataAt "b")).events.count
          TripEventKind.stopReached = 1 ∧
        (processSnapshot 1001 (some exRoute) (some "b")
            (processSnapshot 1000 (some exRoute) (some "b")
                { isFirstCallback := false, busStartedNotified := true, previousStopIndex := -1 }
                (runningDataAt "a")).state (runningDataAt "b")).events.count
          TripEventKind.stopPassed = 0) ∧
      ((processSnapshot 1002 (some exRoute) (some "b")
            (processSnapshot 1001 (some exRoute) (some "b")
                (processSnapshot 1000 (some exRoute) (some "b")
                    { isFirstCallback := false, busStartedNotified := true,
                      previousStopIndex := -1 }
                    (runningDataAt "a")).state (runningDataAt "b")).state
            (runningDataAt "c")).events.count TripEventKind.stopApproaching = 0 ∧
        (processSnapshot 1002 (some exRoute) (some "b")
            (processSnapshot 1001 (some exRoute) (some "b")
                (processSnapshot 1000 (some exRoute) (some "b")
                    { isFirstCallback := false, busStartedNotified := true,
                      previousStopIndex := -1 }
                    (runningDataAt "a")).state (runningDataAt "b")).state
            (runningDataAt "c")).events.count TripEventKind.stopReached = 0 ∧
        (processSnapshot 1002 (some exRoute) (some "b")
            (processSnapshot 1001 (some exRoute) (some "b")
                (processSnapshot 1000 (some exRoute) (some "b")
                    { isFirstCallback := false, busStartedNotified := true,
                      previousStopIndex := -1 }
                    (runningDataAt "a")).state (runningDataAt "b")).state
            (runningDataAt "c")).events.count TripEventKind.stopPassed = 1)) :=
  claim_C5_amended 1000 1001 1002 exRoute (some "b")
    { isFirstCallback := false, busStartedNotified := true, previousStopIndex := -1 }
    (runningDataAt "a") (runningDataAt "b") (runningDataAt "c") 1
    rfl (by decide) (by decide) (by decide) (by decide) (by decide)
    (by decide) (by decide) (by decide) (by decide) (by decide) (by decide)
    (by decide) (by decide) (by decide)

/-! ### C6 -/

/-- C6: after initialization, two consecutive fresh RUNNING snapshots
resolving to s-1 and then s+2 (skipping the student's stop s and s+1 in one
jump) emit no STOP_PASSED for the student at stop index s — the passed rule
requires the resolved index to be exactly s+1 with the previously recorded
index exactly s, and neither snapshot satisfies it.  The server-side
`onBusCurrentStopChange` derivation agrees: a single order change from s to
s+3 (indices s-1 to s+2) also yields no passed event. -/
theorem claim_C6_no_passed_on_skip (n1 n2 : Int) (r : Route) (sid : Option String)
    (st : NotifState) (d1 d2 : BusData) (s : Int)
    (hfc : st.isFirstCallback = false) (hsid : truthyS sid = true)
    (hstu : findIdxI (fun t => t.id == sid.getD "") r.stops = s)
    (h1 : statusOf d1 = "running") (hf1 : isFresh n1 d1 = true)
    (hc1 : computeStopIndex d1 (some r) = s - 1)
    (h2 : statusOf d2 = "running") (hf2 : isFresh n2 d2 = true)
    (hc2 : computeStopIndex d2 (some r) = s + 2) :
    (processSnapshot n1 (some r) sid st d1).events.count TripEventKind.stopPassed = 0 ∧
      (processSnapshot n2 (some r) sid
          (processSnapshot n1 (some r) sid st d1).state d2).events.count
        TripEventKind.stopPassed = 0 ∧
      (cfStopEvents s (s + 3) s).count TripEventKind.stopPassed = 0 := by
  have fc1 : (processSnapshot n1 (some r) sid st d1).state.isFirstCallback = false :=
    processSnapshot_later_fc n1 r sid st d1 hfc hsid
  refine ⟨?_, ?_, ?_⟩
  · rw [processSnapshot_later_stop_count n1 r sid st d1 _ hfc hsid (by decide), hc1, hstu]
    exact stopEventsOf_passed_zero _ (s - 1) st.previousStopIndex s (by omega)
  · rw [processSnapshot_later_stop_count n2 r sid _ d2 _ fc1 hsid (by decide), hc2, hstu]
    exact stopEventsOf_passed_zero _ (s + 2) _ s (by omega)
  · unfold cfStopEvents
    dsimp only
    split_ifs <;> first | rfl | (exfalso; omega)

/-- C6 witness: the concrete three-stop route with the student at index 1
(stop "b"); snapshots resolving to 0 then to the clamped end of the route
via a skip emit no passed event, and the Cloud Function order jump 1 → 4
emits none either. -/
theorem claim_C6_no_passed_on_skip_witness :
    (processSnapshot 1000 (some fiveStopRoute) (some "b")
        { isFirstCallback := false, busStartedNotified := true, previousStopIndex := -1 }
        (runningDataAt "a")).events.count TripEventKind.stopPassed = 0 ∧
      (processSnapshot 1001 (some fiveStopRoute) (some "b")
          (processSnapshot 1000 (some fiveStopRoute) (some "b")
              { isFirstCallback := false, busStartedNotified := true, previousStopIndex := -1 }
              (runningDataAt "a")).state (runningDataAt "d")).events.count
        TripEventKind.stopPassed = 0 ∧
      (cfStopEvents 1 (1 + 3) 1).count TripEventKind.stopPassed = 0 :=
  claim_C6_no_passed_on_skip 1000 1001 fiveStopRoute (some "b")
    { isFirstCallback := false, busStartedNotified := true, previousStopIndex := -1 }
    (runningDataAt "a") (runningDataAt "d") 1
    rfl (by decide) (by decide) (by decide) (by decide) (by decide)
    (by decide) (by decide) (by decide)

/-! ### C7 -/

/-- C7 counterexample: an unresolved snapshot is NOT treated as "no change
to the stop index": with the recorded previous index at 1, a fresh running
snapshot resolving to -1 overwrites the recorded previous index with -1.
Consequently a following snapshot resolving to 2 (= 1 + 1) emits no
STOP_PASSED, although the same snapshot processed directly from the
previous-index-1 state does emit one. -/
theorem claim_C7_counterexample :
    computeStopIndex unresolvedRunningData (some exRoute) = -1 ∧
      (processSnapshot 1000 (some exRoute) (some "b")
          { isFirstCallback := false, busStartedNotified := true, previousStopIndex := 1 }
          unresolvedRunningData).state.previousStopIndex = -1 ∧
      (processSnapshot 1001 (some exRoute) (some "b")
          (processSnapshot 1000 (some exRoute) (some "b")
              { isFirstCallback := false, busStartedNotified := true, previousStopIndex := 1 }
              unresolvedRunningData).state
          (runningDataAt "c")).events.count TripEventKind.stopPassed = 0 ∧
      (processSnapshot 1001 (some exRoute) (some "b")
          { isFirstCallback := false, busStartedNotified := true, previousStopIndex := 1 }
          (runningDataAt "c")).events.count TripEventKind.stopPassed = 1 := by
  decide

/-- C7 (amended): for a fresh snapshot whose resolver returns -1, no
stop-transition rule is evaluated (zero approaching / arrived / passed
events) and the BUS_STARTED rule behaves exactly as it would otherwise
(it fires iff the snapshot is actually running and the flag was clear,
independent of the index); the unresolved result is never coerced to index
0 — but it is *recorded*: the displayed index becomes -1 and, when the
snapshot is fresh, the held previous stop index is overwritten with -1
rather than left unchanged. -/
theorem claim_C7_amended (now : Int) (r : Route) (sid : Option String)
    (st : NotifState) (data : BusData)
    (hfc : st.isFirstCallback = false) (hsid : truthyS sid = true)
    (hunres : computeStopIndex data (some r) = -1) :
    (processSnapshot now (some r) sid st data).events.count TripEventKind.stopApproaching = 0 ∧
      (processSnapshot now (some r) sid st data).events.count TripEventKind.stopReached = 0 ∧
      (processSnapshot now (some r) sid st data).events.count TripEventKind.stopPassed = 0 ∧
      ((processSnapshot now (some r) sid st data).events.count TripEventKind.busStarted =
        if isActuallyRunning now data = true ∧ st.busStartedNotified = false then 1 else 0) ∧
      (processSnapshot now (some r) sid st data).disp.currentStopIndex = -1 ∧
      (processSnapshot now (some r) sid st data).state.previousStopIndex =
        (if isFresh now data = true then -1 else st.previousStopIndex) := by
  have hzero : ∀ k : TripEventKind, k ≠ TripEventKind.busStarted →
      (processSnapshot now (some r) sid st data).events.count k = 0 := by
    intro k hk
    rw [processSnapshot_later_stop_count now r sid st data k hfc hsid hk, hunres,
      stopEventsOf_neg _ _ _ _ (by omega)]
    rfl
  refine ⟨hzero _ (by decide), hzero _ (by decide), hzero _ (by decide), ?_, ?_, ?_⟩
  · rw [processSnapshot_later now r sid st data hfc hsid]
    dsimp only
    rw [List.count_append, startEventsOf_count_busStarted, stopEventsOf_count_busStarted]
    by_cases hrun : isActuallyRunning now data = true <;> simp [hrun]
  · rw [processSnapshot_later now r sid st data hfc hsid]
    exact hunres
  · rw [processSnapshot_later now r sid st data hfc hsid]
    dsimp only
    rw [hunres]

/-- C7 witness: a concrete fresh running unresolved snapshot from a
cleared-flag state emits one bus-started and nothing else, records -1, and
displays -1. -/
theorem claim_C7_amended_witness :
    (processSnapshot 1000 (some exRoute) (some "b")
          { isFirstCallback := false, busStartedNotified := false, previousStopIndex := 0 }
          unresolvedRunningData).events.count TripEventKind.stopApproaching = 0 ∧
      (processSnapshot 1000 (some exRoute) (some "b")
          { isFirstCallback := false, busStartedNotified := false, previousStopIndex := 0 }
          unresolvedRunningData).events.count TripEventKind.stopReached = 0 ∧
      (processSnapshot 1000 (some exRoute) (some "b")
          { isFirstCallback := false, busStartedNotified := false, previousStopIndex := 0 }
          unresolvedRunningData).events.count TripEventKind.stopPassed = 0 ∧
      ((processSnapshot 1000 (some exRoute) (some "b")
            { isFirstCallback := false, busStartedNotified := false, previousStopIndex := 0 }
            unresolvedRunningData).events.count TripEventKind.busStarted =
        if isActuallyRunning 1000 unresolvedRunningData = true ∧ false = false then 1 else 0) ∧
      (processSnapshot 1000 (some exRoute) (some "b")
          { isFirstCallback := false, busStartedNotified := false, previousStopIndex := 0 }
          unresolvedRunningData).disp.currentStopIndex = -1 ∧
      (processSnapshot 1000 (some exRoute) (some "b")
          { isFirstCallback := false, busStartedNotified := false, previousStopIndex := 0 }
          unresolvedRunningData).state.previousStopIndex =
        (if isFresh 1000 unresolvedRunningData = true then -1 else 0) :=
  claim_C7_amended 1000 exRoute (some "b")
    { isFirstCallback := false, busStartedNotified := false, previousStopIndex := 0 }
    unresolvedRunningData rfl (by decide) (by decide)

/-! ### C8 -/

/-- Number of tokens whose delivery succeeds. -/
def deliveredOkCount (deliver : String → SendOutcome) (tokens : List TokenRec) : Nat :=
  (tokens.filter fun t => isOk (deliver t.token)).length

/-- Whether some token of `studentId` in the batch suffers a permanent
delivery failure. -/
def permanentlyFailed (deliver : String → SendOutcome) (tokens : List TokenRec)
    (studentId : String) : Bool :=
  tokens.any fun t => studentId == t.studentId && isPermanentFailure (deliver t.token)

/-- The fold underlying `sendToTokens`, characterized for an arbitrary
accumulator: every token is attempted, successes are counted, and the
directory loses exactly the entries of permanently failed students. -/
theorem sendToTokens_foldl (deliver : String → SendOutcome) (tokens : List TokenRec)
    (n : Nat) (dir : StudentTokenDir) :
    tokens.foldl
        (fun acc t =>
          match deliver t.token with
          | SendOutcome.ok => (acc.1 + 1, acc.2)
          | SendOutcome.sendError code =>
            if isPermanentCode code = true then
              (acc.1, acc.2.filter fun e => !(e.1 == t.studentId))
            else acc)
        (n, dir) =
      (n + deliveredOkCount deliver tokens,
        dir.filter fun e => !(permanentlyFailed deliver tokens e.1)) := by
  induction tokens generalizing n dir with
  | nil =>
    simp only [List.foldl_nil, deliveredOkCount, permanentlyFailed, List.filter_nil,
      List.length_nil, List.any_nil, Bool.not_false, Nat.add_zero, List.filter_true]
  | cons t rest ih =>
    simp only [List.foldl_cons]
    cases hdel : deliver t.token with
    | ok =>
      rw [ih, Prod.mk.injEq]
      constructor
      · simp [deliveredOkCount, List.filter_cons, hdel, isOk]
        omega
      · refine List.filter_congr ?_
        intro e _
        simp only [permanentlyFailed, List.any_cons, hdel, isPermanentFailure,
          Bool.and_false, Bool.false_or]
    | sendError code =>
      dsimp only
      by_cases hperm : isPermanentCode code = true
      · rw [if_pos hperm, ih, Prod.mk.injEq]
        constructor
        · simp [deliveredOkCount, List.filter_cons, hdel, isOk]
        · rw [List.filter_filter]
          refine List.filter_congr ?_
          intro e _
          cases hq : (e.1 == t.studentId) <;>
            cases hr : rest.any
              (fun t2 => e.1 == t2.studentId && isPermanentFailure (deliver t2.token)) <;>
            simp [permanentlyFailed, List.any_cons, hdel, isPermanentFailure, hperm, hq, hr]
      · rw [if_neg hperm, ih, Prod.mk.injEq]
        constructor
        · simp [deliveredOkCount, List.filter_cons, hdel, isOk]
        · refine List.filter_congr ?_
          intro e _
          cases hq : (e.1 == t.studentId) <;>
            simp [permanentlyFailed, List.any_cons, hdel, isPermanentFailure, hperm, hq]

/-- C8: a batch dispatch attempts delivery for every token independently:
it returns the number of successful deliveries over the whole batch (so a
failure — permanent or transient — for one student never prevents delivery
attempts to the rest), and the student directory afterwards is exactly the
original minus the tokens of students whose delivery failed permanently
(invalid/unregistered token); a transient failure removes nothing and
leaves every other student's target untouched. -/
theorem claim_C8_dispatch (deliver : String → SendOutcome) (tokens : List TokenRec)
    (dir : StudentTokenDir) :
    (sendToTokens deliver tokens dir).1 = deliveredOkCount deliver tokens ∧
      (sendToTokens deliver tokens dir).2 =
        dir.filter fun e => !(permanentlyFailed deliver tokens e.1) := by
  unfold sendToTokens
  rw [sendToTokens_foldl, Nat.zero_add]
  exact ⟨rfl, rfl⟩

/-! ### C9 -/

/-- C9: on the student-facing read path, whenever the held bus state has
status "completed" and its last-updated timestamp is more than 30 minutes
older than the current time, the displayed status is reset to
"not-started", every stop's displayed status is "pending" regardless of
the per-stop RTDB data, and the bus position is hidden from the map. -/
theorem claim_C9_completion_expiry (now : Int) (bs : BusStateDisp) (route : Route)
    (rstops : Option (List (String × RtdbStopEntry))) (index : Nat)
    (loc : Option RealtimeLoc) (rrs : Option String)
    (hstatus : bs.status = "completed")
    (hage : now - bs.lastUpdated > 30 * 60 * 1000) :
    effectiveStatus now bs = "not-started" ∧
      getStopStatus now bs route rstops index = "pending" ∧
      busPosition now bs loc rrs = none := by
  have hexp : isCompletedButExpired now bs = true := by
    unfold isCompletedButExpired
    rw [if_neg (by simp [hstatus])]
    exact decide_eq_true hage
  refine ⟨?_, ?_, ?_⟩
  · unfold effectiveStatus
    rw [if_pos hexp]
  · unfold getStopStatus
    cases route.stops.get? index with
    | none => rfl
    | some stop =>
      dsimp only
      rw [if_pos hexp]
  · unfold busPosition
    cases loc with
    | none => rfl
    | some l =>
      dsimp only
      by_cases h1 : (truthyI l.latitude = false ∨ truthyI l.longitude = false)
      · rw [if_pos h1]
      · rw [if_neg h1, if_pos hexp]

/-- C9 witness: a completed bus state last updated at time 0, read at time
2·10^6 (more than 30 minutes later), displays not-started, all-pending
stops (even with an RTDB entry claiming "current"), and no map marker
(even with live coordinates and an in-progress route state). -/
theorem claim_C9_completion_expiry_witness :
    effectiveStatus 2000000 { status := "completed", currentStopIndex := 1, lastUpdated := 0 } =
        "not-started" ∧
      getStopStatus 2000000 { status := "completed", currentStopIndex := 1, lastUpdated := 0 }
          exRoute (some [("b", { status := some "current" })]) 1 = "pending" ∧
      busPosition 2000000 { status := "completed", currentStopIndex := 1, lastUpdated := 0 }
          (some { latitude := some 5, longitude := some 6, routeState := some "in_progress" })
          none = none :=
  claim_C9_completion_expiry 2000000
    { status := "completed", currentStopIndex := 1, lastUpdated := 0 } exRoute
    (some [("b", { status := some "current" })]) 1
    (some { latitude := some 5, longitude := some 6, routeState := some "in_progress" })
    none rfl (by decide)

/-! ### C3 -/

/-- A resolution source succeeds when it yields a nonnegative index. -/
def idxToOpt (i : Int) : Option Int :=
  if 0 ≤ i then some i else none

/-- First-success-wins combination of two resolution sources. -/
def orElseI (a b : Option Int) : Option Int :=
  match a with
  | some v => some v
  | none => b

/-- The resolution cascade exactly as claim C3 states it, first success
winning: (1) the per-stop-status CURRENT entry matched by stop id (its key,
or its `stopId` field), (2) that entry's name matched against the route's
stop names, (3) `currentStop.stopId` matched by id, (4) `currentStop.name`
matched by name, (5) `currentStop.ordinal - 1` clamped to
`[0, len(stops)-1]`, otherwise -1.  Stated from the claim's words, to be
compared with the source's `computeStopIndex`. -/
def claimResolve (data : BusData) (r : Route) : Int :=
  let stops := r.stops
  let fromPerStop : Option Int :=
    data.stops.bind fun entries =>
      (entries.find? fun e => e.2.status == some "current").bind fun current =>
        orElseI
          (orElseI (idxToOpt (findIdxI (fun s => s.id == current.1) stops))
            (if truthyS current.2.stopId = true then
              idxToOpt (findIdxI (fun s => s.id == current.2.stopId.getD "") stops)
            else none))
          (if truthyS current.2.name = true then
            idxToOpt (findIdxI (fun s => s.name == current.2.name.getD "") stops)
          else none)
  let fromCurrentStop : Option Int :=
    data.currentStop.bind fun cs =>
      orElseI
        (if truthyS cs.stopId = true then
          idxToOpt (findIdxI (fun s => s.id == cs.stopId.getD "") stops)
        else none)
        (orElseI
          (if truthyS cs.name = true then
            idxToOpt (findIdxI (fun s => s.name == cs.name.getD "") stops)
          else none)
          (cs.order.map fun o => max 0 (min (o - 1) ((stops.length : Int) - 1))))
  (orElseI fromPerStop fromCurrentStop).getD (-1)

/-- The CURRENT-entry cascade in the source's order, first success winning:
key-id match, `stopId`-field match, order fallback, then name match. -/
def entryCascade (current : String × RtdbStopEntry) (stops : List Stop) : Option Int :=
  orElseI (idxToOpt (findIdxI (fun s => s.id == current.1) stops))
    (orElseI
      (if truthyS current.2.stopId = true then
        idxToOpt (findIdxI (fun s => s.id == current.2.stopId.getD "") stops)
      else none)
      (orElseI
        (if current.2.order.isSome = true then some (max 0 (current.2.order.getD 0 - 1))
        else none)
        (if truthyS current.2.name = true then
          idxToOpt (findIdxI (fun s => s.name == current.2.name.getD "") stops)
        else none)))

/-- The `currentStop` cascade in the source's order, first success winning:
`stopId` match, name match, then order fallback. -/
def currentStopCascade (cs : RtdbCurrentStop) (stops : List Stop) : Option Int :=
  orElseI
    (if truthyS cs.stopId = true then
      idxToOpt (findIdxI (fun s => s.id == cs.stopId.getD "") stops)
    else none)
    (orElseI
      (if truthyS cs.name = true then
        idxToOpt (findIdxI (fun s => s.name == cs.name.getD "") stops)
      else none)
      (if cs.order.isSome = true then some (max 0 (cs.order.getD 0 - 1)) else none))

/-- The amended C3 cascade: the resolver's actual order, written as an
explicit first-success-wins cascade — per-stop CURRENT entry (key id,
`stopId` field, order-1 floored at 0, name) before `currentStop` (`stopId`,
name, order-1 floored at 0), with the final upper clamp to the last stop. -/
def amendedResolve (data : BusData) (r : Route) : Int :=
  let fromPerStop : Option Int :=
    data.stops.bind fun entries =>
      (entries.find? fun e => e.2.status == some "current").bind fun current =>
        entryCascade current r.stops
  let fromCurrentStop : Option Int :=
    data.currentStop.bind fun cs => currentStopCascade cs r.stops
  let pre := (orElseI fromPerStop fromCurrentStop).getD (-1)
  if (r.stops.length : Int) ≤ pre then (r.stops.length : Int) - 1 else pre

/-- A snapshot whose CURRENT per-stop entry carries an order conflicting
with its name: key "x" matches no stop id on the example route, the order
field says 3 (index 2), the name says "B" (index 1). -/
def orderNameConflictData : BusData :=
  { stops := some [("x", { status := some "current", order := some 3, name := some "B" })] }

/-- `(idxToOpt x).getD (-1)` is the identity on chain values. -/
theorem idxToOpt_getD (x : Int) (hx : x = -1 ∨ 0 ≤ x) : (idxToOpt x).getD (-1) = x := by
  rcases hx with hx | hx
  · subst hx
    rw [idxToOpt, if_neg (by omega)]
    rfl
  · rw [idxToOpt, if_pos hx]
    rfl

/-- A code chain step preserves the chain-value invariant. -/
theorem step_ok (x a : Int) (c : Bool) (hx : x = -1 ∨ 0 ≤ x) (ha : a = -1 ∨ 0 ≤ a) :
    (if x < 0 ∧ c = true then a else x) = -1 ∨ 0 ≤ (if x < 0 ∧ c = true then a else x) := by
  split_ifs <;> tauto

/-- One fallback of the code's imperative chain corresponds to one
first-success-wins source in the cascade. -/
theorem cascade_step (x a : Int) (c : Bool) (rest : Option Int) (hx : x = -1 ∨ 0 ≤ x) :
    orElseI (idxToOpt x) (orElseI (if c = true then idxToOpt a else none) rest) =
      orElseI (idxToOpt (if x < 0 ∧ c = true then a else x)) rest := by
  rcases hx with hx | hx
  · subst hx
    rw [show idxToOpt (-1) = none from by rw [idxToOpt, if_neg (by omega)]]
    cases c
    · rw [if_neg (by simp), if_neg (by rintro ⟨-, h⟩; exact Bool.false_ne_true h)]
      rw [show idxToOpt (-1) = none from by rw [idxToOpt, if_neg (by omega)]]
      rfl
    · rw [if_pos rfl, if_pos ⟨by omega, rfl⟩]
      rfl
  · rw [if_neg (show ¬(x < 0 ∧ c = true) from fun h => absurd h.1 (by omega))]
    rw [show idxToOpt x = some x from by rw [idxToOpt, if_pos hx]]
    rfl

/-- Final fallback of the chain. -/
theorem cascade_last (x a : Int) (c : Bool) (hx : x = -1 ∨ 0 ≤ x) :
    orElseI (idxToOpt x) (if c = true then idxToOpt a else none) =
      idxToOpt (if x < 0 ∧ c = true then a else x) := by
  rcases hx with hx | hx
  · subst hx
    rw [show idxToOpt (-1) = none from by rw [idxToOpt, if_neg (by omega)]]
    cases c
    · rw [if_neg (by simp), if_neg (by rintro ⟨-, h⟩; exact Bool.false_ne_true h)]
      rw [show idxToOpt (-1) = none from by rw [idxToOpt, if_neg (by omega)]]
      rfl
    · rw [if_pos rfl, if_pos ⟨by omega, rfl⟩]
      rfl
  · rw [if_neg (show ¬(x < 0 ∧ c = true) from fun h => by omega)]
    rw [show idxToOpt x = some x from by rw [idxToOpt, if_pos hx]]
    rfl

/-- Head fallback entered with the unresolved value -1. -/
theorem cascade_head (a : Int) (c : Bool) (rest : Option Int) :
    orElseI (if c = true then idxToOpt a else none) rest =
      orElseI (idxToOpt (if c = true then a else -1)) rest := by
  cases c
  · rw [if_neg (by simp), if_neg (by simp)]
    rw [show idxToOpt (-1) = none from by rw [idxToOpt, if_neg (by omega)]]
  · rw [if_pos rfl, if_pos rfl]

/-- The CURRENT-entry fallback chain equals its cascade form. -/
theorem entryCascade_eq (current : String × RtdbStopEntry) (stops : List Stop) :
    entryCascade current stops = idxToOpt (resolveFromCurrentEntry current stops) := by
  unfold entryCascade resolveFromCurrentEntry
  dsimp only
  rw [show (if current.2.order.isSome = true then
        some (max 0 (current.2.order.getD 0 - 1)) else none) =
      (if current.2.order.isSome = true then
        idxToOpt (max 0 (current.2.order.getD 0 - 1)) else none) from by
    split_ifs
    · rw [idxToOpt, if_pos (le_max_left 0 _)]
    · rfl]
  rw [cascade_step _ _ _ _ (findIdxI_neg_one_or_nonneg _ stops)]
  rw [cascade_step _ _ _ _
    (step_ok _ _ _ (findIdxI_neg_one_or_nonneg _ stops) (findIdxI_neg_one_or_nonneg _ stops))]
  rw [cascade_last _ _ _
    (step_ok _ _ _
      (step_ok _ _ _ (findIdxI_neg_one_or_nonneg _ stops) (findIdxI_neg_one_or_nonneg _ stops))
      (Or.inr (le_max_left 0 _)))]

/-- The `currentStop` fallback chain (entered unresolved) equals its
cascade form. -/
theorem currentStopCascade_eq (cs : RtdbCurrentStop) (stops : List Stop) :
    currentStopCascade cs stops = idxToOpt (resolveFromCurrentStop cs (-1) stops) := by
  unfold currentStopCascade resolveFromCurrentStop
  dsimp only
  rw [show (if cs.order.isSome = true then some (max 0 (cs.order.getD 0 - 1)) else none) =
      (if cs.order.isSome = true then idxToOpt (max 0 (cs.order.getD 0 - 1)) else none) from by
    split_ifs
    · rw [idxToOpt, if_pos (le_max_left 0 _)]
    · rfl]
  rw [cascade_head]
  rw [cascade_step _ _ _ _
    (show (if truthyS cs.stopId = true then
        findIdxI (fun s => s.id == cs.stopId.getD "") stops else -1) = -1 ∨
      0 ≤ (if truthyS cs.stopId = true then
        findIdxI (fun s => s.id == cs.stopId.getD "") stops else -1) from by
      split_ifs
      · exact findIdxI_neg_one_or_nonneg _ stops
      · exact Or.inl rfl)]
  rw [cascade_last _ _ _
    (step_ok _ _ _
      (show (if truthyS cs.stopId = true then
          findIdxI (fun s => s.id == cs.stopId.getD "") stops else -1) = -1 ∨
        0 ≤ (if truthyS cs.stopId = true then
          findIdxI (fun s => s.id == cs.stopId.getD "") stops else -1) from by
        split_ifs
        · exact findIdxI_neg_one_or_nonneg _ stops
        · exact Or.inl rfl)
      (findIdxI_neg_one_or_nonneg _ stops))]

/-- The per-stop-status branch equals its cascade form. -/
theorem perStop_opt_eq (data : BusData) (stops : List Stop) :
    (data.stops.bind fun entries =>
        (entries.find? fun e => e.2.status == some "current").bind fun current =>
          entryCascade current stops) =
      idxToOpt (resolveFromPerStop data stops) := by
  unfold resolveFromPerStop
  rcases data.stops with _ | entries
  · rw [show idxToOpt (-1) = none from by rw [idxToOpt, if_neg (by omega)]]
    rfl
  · dsimp only [Option.bind]
    cases entries.find? (fun e => e.2.status == some "current") with
    | none =>
      rw [show idxToOpt (-1) = none from by rw [idxToOpt, if_neg (by omega)]]
    | some current => exact entryCascade_eq current stops

/-- C3 counterexample: on the example route, for a snapshot whose CURRENT
per-stop entry has no id match but carries both `order = 3` and
`name = "B"`, the source resolver returns index 2 (the order fallback)
while the claim's cascade — which tries the entry's name before any
ordinal — returns index 1. -/
theorem claim_C3_counterexample :
    computeStopIndex orderNameConflictData (some exRoute) = 2 ∧
      claimResolve orderNameConflictData exRoute = 1 := by
  decide

/-- C3 (amended): the resolver tries its sources in exactly this order,
first success winning: (1) the per-stop-status CURRENT entry matched by its
key against stop ids, (2) the entry's `stopId` field matched by id, (3) the
entry's `order - 1` floored at 0, (4) the entry's name matched by name,
then (5) `currentStop.stopId` by id, (6) `currentStop.name` by name,
(7) `currentStop.order - 1` floored at 0, and otherwise -1; any result at
or past `len(stops)` is clamped to `len(stops) - 1`; in particular a
resolvable CURRENT entry always wins over a conflicting `currentStop`.
Proved as the equality of `computeStopIndex` with the explicit cascade. -/
theorem claim_C3_amended (data : BusData) (r : Route) :
    computeStopIndex data (some r) = amendedResolve data r := by
  unfold computeStopIndex amendedResolve
  dsimp only
  have hpre : rawStopIndex data r.stops =
      (orElseI
          (data.stops.bind fun entries =>
            (entries.find? fun e => e.2.status == some "current").bind fun current =>
              entryCascade current r.stops)
          (data.currentStop.bind fun cs => currentStopCascade cs r.stops)).getD (-1) := by
    rw [perStop_opt_eq data r.stops]
    unfold rawStopIndex
    cases data.currentStop with
    | none =>
      dsimp only [Option.bind]
      rcases resolveFromPerStop_ok data r.stops with h | h
      · rw [h, show idxToOpt (-1) = none from by rw [idxToOpt, if_neg (by omega)]]
        rfl
      · rw [show idxToOpt (resolveFromPerStop data r.stops) =
            some (resolveFromPerStop data r.stops) from by rw [idxToOpt, if_pos h]]
        rfl
    | some cs =>
      dsimp only [Option.bind]
      rcases resolveFromPerStop_ok data r.stops with h | h
      · rw [if_pos (show resolveFromPerStop data r.stops < 0 by omega), h,
          show idxToOpt (-1) = none from by rw [idxToOpt, if_neg (by omega)]]
        rw [show orElseI none (currentStopCascade cs r.stops) =
            currentStopCascade cs r.stops from rfl]
        rw [currentStopCascade_eq cs r.stops]
        exact (idxToOpt_getD _ (resolveFromCurrentStop_ok cs (-1) r.stops (Or.inl rfl))).symm
      · rw [if_neg (show ¬(resolveFromPerStop data r.stops < 0) by omega)]
        rw [show idxToOpt (resolveFromPerStop data r.stops) =
            some (resolveFromPerStop data r.stops) from by rw [idxToOpt, if_pos h]]
        rfl
  rw [hpre]

end BusTracker
